import Mathlib

/-!
Verification development for the AI text-analysis core of the read-me-book
repository (`ai_text_analyzer.py`): line classification, chapter detection,
content extraction, duration estimation and document organization, embedded
shallowly over `List Char` strings, with theorems settling the behavioural
claims about the engine.
-/

/-- Python `\s` / `str.strip()` whitespace, restricted to the ASCII set
(space, tab, newline, carriage return, vertical tab, form feed). -/
def pyIsSpace (c : Char) : Bool :=
  c = ' ' || c = '\t' || c = '\n' || c = '\r' || c = '\x0b' || c = '\x0c'

/-- Python `str.strip()`: drop leading and trailing whitespace. -/
def pystrip (s : List Char) : List Char :=
  ((s.dropWhile pyIsSpace).reverse.dropWhile pyIsSpace).reverse

/-- Python `\d` (ASCII decimal digit). -/
def isDigitC (c : Char) : Bool := '0' ≤ c && c ≤ '9'

/-- Regex class `[A-Z]`. -/
def isUpperC (c : Char) : Bool := 'A' ≤ c && c ≤ 'Z'

/-- Regex class `[IVXLCDM]` (Roman-numeral letters). -/
def isRomanC (c : Char) : Bool :=
  c = 'I' || c = 'V' || c = 'X' || c = 'L' || c = 'C' || c = 'D' || c = 'M'

/-- Helper for `splitNl`: accumulate the current line (reversed) while
scanning for newline separators. -/
def splitNlAux : List Char → List Char → List (List Char)
  | [], acc => [acc.reverse]
  | c :: cs, acc =>
    if c = '\n' then acc.reverse :: splitNlAux cs [] else splitNlAux cs (c :: acc)

/-- Python `text.split('\n')`: split on every newline, keeping empty pieces. -/
def splitNl (s : List Char) : List (List Char) := splitNlAux s []

/-- Match of `\s+(\d+|[IVXLCDM]+)` at the start of `rest`: at least one
whitespace character, then (after the whitespace run) a digit or Roman letter. -/
def wsThenNum (rest : List Char) : Bool :=
  match rest with
  | [] => false
  | c :: _ =>
    pyIsSpace c &&
      (match rest.dropWhile pyIsSpace with
       | [] => false
       | d :: _ => isDigitC d || isRomanC d)

/-- Match of `\s+\d+` at the start of `rest`. -/
def wsThenDigit (rest : List Char) : Bool :=
  match rest with
  | [] => false
  | c :: _ =>
    pyIsSpace c &&
      (match rest.dropWhile pyIsSpace with
       | [] => false
       | d :: _ => isDigitC d)

/-- `re.match` of `^(w1|w2|...)\s+(\d+|[IVXLCDM]+)`: some alternative word is a
prefix of `s` and the remainder starts with whitespace then a numeral char. -/
def keywordNum (ws : List (List Char)) (s : List Char) : Bool :=
  ws.any fun w => w.isPrefixOf s && wsThenNum (s.drop w.length)

/-- `re.match` of `^(w1|w2|...)\s+(\d+)`. -/
def keywordDigit (ws : List (List Char)) (s : List Char) : Bool :=
  ws.any fun w => w.isPrefixOf s && wsThenDigit (s.drop w.length)

/-- Chapter pattern `^(Chapter|CHAPTER|Capítulo|CAPÍTULO)\s+(\d+|[IVXLCDM]+)`. -/
def chapterPat1 (s : List Char) : Bool :=
  keywordNum ["Chapter".data, "CHAPTER".data, "Capítulo".data, "CAPÍTULO".data] s

/-- Chapter pattern `^(\d+)\.\s+[A-Z]`. -/
def chapterPat2 (s : List Char) : Bool :=
  match s with
  | [] => false
  | c :: _ =>
    isDigitC c &&
      (match s.dropWhile isDigitC with
       | '.' :: r2 =>
         (match r2 with
          | [] => false
          | c2 :: _ =>
            pyIsSpace c2 &&
              (match r2.dropWhile pyIsSpace with
               | u :: _ => isUpperC u
               | [] => false))
       | _ => false)

/-- Chapter pattern `^[A-Z][A-Z\s]{10,}$`. -/
def chapterPat3 (s : List Char) : Bool :=
  match s with
  | [] => false
  | c :: rest =>
    isUpperC c && decide (10 ≤ rest.length) &&
      rest.all (fun d => isUpperC d || pyIsSpace d)

/-- Chapter pattern `^(Part|PART|Parte|PARTE)\s+(\d+|[IVXLCDM]+)`. -/
def chapterPat4 (s : List Char) : Bool :=
  keywordNum ["Part".data, "PART".data, "Parte".data, "PARTE".data] s

/-- Chapter pattern `^(Section|SECTION|Seção|SEÇÃO)\s+(\d+)`. -/
def chapterPat5 (s : List Char) : Bool :=
  keywordDigit ["Section".data, "SECTION".data, "Seção".data, "SEÇÃO".data] s

/-- Any chapter-heading pattern matches (patterns tried in source order). -/
def isChapterLine (s : List Char) : Bool :=
  chapterPat1 s || chapterPat2 s || chapterPat3 s || chapterPat4 s || chapterPat5 s

/-- Header/footer pattern `^\d+\s*$`: a digit run then only whitespace to the end. -/
def digitsOnlyPat (s : List Char) : Bool :=
  match s with
  | [] => false
  | c :: _ => isDigitC c && (s.dropWhile isDigitC).all pyIsSpace

/-- Header pattern `^[A-Z\s]+$`. -/
def allCapsPat (s : List Char) : Bool :=
  !s.isEmpty && s.all (fun c => isUpperC c || pyIsSpace c)

/-- Header pattern `^\s*\d+\s*\|\s*` (page markers with pipes), prefix match. -/
def pipePat (s : List Char) : Bool :=
  match s.dropWhile pyIsSpace with
  | [] => false
  | c :: _ =>
    isDigitC c &&
      (match ((s.dropWhile pyIsSpace).dropWhile isDigitC).dropWhile pyIsSpace with
       | '|' :: _ => true
       | _ => false)

/-- Footer pattern `^\s*\d+\s*$`. -/
def wsDigitsPat (s : List Char) : Bool :=
  digitsOnlyPat (s.dropWhile pyIsSpace)

/-- Some header pattern matches. -/
def isHeaderLine (s : List Char) : Bool :=
  digitsOnlyPat s || allCapsPat s || pipePat s

/-- Some footer pattern matches (`^\d+\s*$`, `^Copyright`, `^©`, `^\s*\d+\s*$`). -/
def isFooterLine (s : List Char) : Bool :=
  digitsOnlyPat s || "Copyright".data.isPrefixOf s ||
    (match s with | c :: _ => c = '©' | [] => false) || wsDigitsPat s

/-- Footnote pattern `^\s*\d+\s+` (leading integer followed by whitespace). -/
def footnotePat (s : List Char) : Bool :=
  match s.dropWhile pyIsSpace with
  | [] => false
  | c :: _ =>
    isDigitC c &&
      (match (s.dropWhile pyIsSpace).dropWhile isDigitC with
       | d :: _ => pyIsSpace d
       | [] => false)

/-- Reference pattern `^\[\d+\]`. -/
def referencePat (s : List Char) : Bool :=
  match s with
  | '[' :: r =>
    (match r with
     | [] => false
     | c :: _ =>
       isDigitC c &&
         (match r.dropWhile isDigitC with
          | ']' :: _ => true
          | _ => false))
  | _ => false

/-- The classification categories returned by `classify_line_type`. -/
inductive LineType
  | empty
  | chapter
  | header
  | footer
  | footnote
  | reference
  | content
deriving DecidableEq, Repr

/-- `AITextAnalyzer.classify_line_type`: strip the line, then test in priority
order: empty, chapter patterns, header patterns (position < 3, length < 50),
footer patterns (position ≥ total−3, length < 50), footnote pattern
(length < 150), reference pattern; otherwise content. -/
def classify_line_type (line : List Char) (position : Nat) (total_lines : Nat) :
    LineType :=
  let l := pystrip line
  if l.isEmpty then .empty
  else if isChapterLine l then .chapter
  else if decide (position < 3) && decide (l.length < 50) && isHeaderLine l then
    .header
  else if decide ((position : Int) ≥ (total_lines : Int) - 3) &&
      decide (l.length < 50) && isFooterLine l then
    .footer
  else if footnotePat l && decide (l.length < 150) then .footnote
  else if referencePat l then .reference
  else .content

/-- The values of the Roman-numeral dictionary in `_roman_to_int`; unknown
characters get value 0 (`roman.get(char, 0)`). -/
def romanVal (c : Char) : Int :=
  if c = 'I' then 1 else if c = 'V' then 5 else if c = 'X' then 10
  else if c = 'L' then 50 else if c = 'C' then 100 else if c = 'D' then 500
  else if c = 'M' then 1000 else 0

/-- The loop of `_roman_to_int`, over the already-reversed character list:
subtract a value smaller than the previously scanned one, else add it. -/
def romanToIntAux : List Char → Int → Int → Int
  | [], result, _ => result
  | c :: cs, result, prev =>
    let v := romanVal c
    romanToIntAux cs (if v < prev then result - v else result + v) v

/-- `AITextAnalyzer._roman_to_int`: scan the string right to left. -/
def roman_to_int (s : List Char) : Int := romanToIntAux s.reverse 0 0

/-- `re.search(pat+, line)` for a character class: first maximal run of
matching characters anywhere in the string, if any. -/
def searchRun (p : Char → Bool) : List Char → Option (List Char)
  | [] => none
  | c :: cs => if p c then some (c :: cs.takeWhile p) else searchRun p cs

/-- Python `int` applied to a digit run. -/
def digitsToNat (ds : List Char) : Nat :=
  ds.foldl (fun n c => 10 * n + (c.toNat - '0'.toNat)) 0

/-- Python ASCII lowercasing plus the accented uppercase letters appearing in
the source's keyword checks (`str.lower()`). -/
def pyToLower (c : Char) : Char :=
  if isUpperC c then Char.ofNat (c.toNat + 32)
  else if c = 'Í' then 'í' else if c = 'É' then 'é' else if c = 'Ç' then 'ç'
  else if c = 'Ã' then 'ã' else if c = 'Õ' then 'õ' else c

/-- Python `needle in haystack` (substring containment). -/
def containsSub (needle : List Char) : List Char → Bool
  | [] => needle.isEmpty
  | c :: cs => needle.isPrefixOf (c :: cs) || containsSub needle cs

/-- The hierarchical kind stored in a chapter marker's `type` field. -/
inductive ChapKind
  | chapterKind
  | partKind
  | sectionKind
deriving DecidableEq, Repr

/-- `AITextAnalyzer._extract_chapter_info`: the first digit run yields the
number; failing that, the first maximal Roman-letter run is converted via
`_roman_to_int`; the kind comes from case-insensitive substring checks. -/
def extract_chapter_info (chapter_line : List Char) : Option Int × ChapKind :=
  let roman_match := searchRun isRomanC chapter_line
  let arabic_match := searchRun isDigitC chapter_line
  let low := chapter_line.map pyToLower
  let kind :=
    if containsSub "part".data low || containsSub "parte".data low then
      ChapKind.partKind
    else if containsSub "section".data low || containsSub "seção".data low then
      ChapKind.sectionKind
    else ChapKind.chapterKind
  let number : Option Int :=
    match arabic_match with
    | some ds => some (digitsToNat ds)
    | none =>
      match roman_match with
      | some rs => some (roman_to_int rs)
      | none => none
  (number, kind)

/-- A page of input: a 1-indexed page number and the raw extracted text
(`page_number` / `text` of the page dictionaries). -/
structure Page where
  page_number : Nat
  text : List Char
deriving DecidableEq, Repr

/-- The page's line list, as computed by `page['text'].split('\n')`. -/
def pageLines (p : Page) : List (List Char) := splitNl p.text

/-- A detected chapter marker, as appended by `detect_chapters_advanced`. -/
structure ChapterMarker where
  title : List Char
  chapter_number : Option Int
  type : ChapKind
  page : Nat
  line_position : Nat
  confidence : ℚ
deriving DecidableEq, Repr

/-- The per-page scan of `detect_chapters_advanced`: every line classified
`chapter` yields a marker with confidence 0.9. -/
def scanChapters (page_num total : Nat) : Nat → List (List Char) → List ChapterMarker
  | _, [] => []
  | i, l :: ls =>
    if classify_line_type l i total = .chapter then
      let info := extract_chapter_info l
      { title := pystrip l, chapter_number := info.1, type := info.2,
        page := page_num, line_position := i, confidence := (9 : ℚ) / 10 } ::
        scanChapters page_num total (i + 1) ls
    else scanChapters page_num total (i + 1) ls

/-- `AITextAnalyzer.detect_chapters_advanced`. -/
def detect_chapters_advanced (pages_data : List Page) : List ChapterMarker :=
  (pages_data.map fun p =>
    scanChapters p.page_number (pageLines p).length 0 (pageLines p)).flatten

/-- Round a rational to the nearest integer, ties to even (Python `round`
applied to an exact value). -/
def roundHalfEven (q : ℚ) : ℤ :=
  let f := ⌊q⌋
  let r := q - f
  if r < 1 / 2 then f
  else if 1 / 2 < r then f + 1
  else if f % 2 = 0 then f else f + 1

/-- Python `round(x, 1)` over exact rationals: round `10x` half-to-even, then
divide by 10. -/
def pyRound1 (q : ℚ) : ℚ := (roundHalfEven (q * 10) : ℚ) / 10

/-- The three speaking-rate components of a duration estimate, in minutes. -/
structure DurationEstimate where
  slow : ℚ
  medium : ℚ
  fast : ℚ
deriving DecidableEq, Repr

/-- `AITextAnalyzer._estimate_duration`: word count divided by the three fixed
words-per-minute rates 130/150/180, each rounded to one decimal place. -/
def estimate_duration (word_count : Nat) : DurationEstimate :=
  { slow := pyRound1 ((word_count : ℚ) / 130),
    medium := pyRound1 ((word_count : ℚ) / 150),
    fast := pyRound1 ((word_count : ℚ) / 180) }

/-- Helper for `countWords`: the Boolean flag records whether the previous
character was inside a word. -/
def countWordsAux : Bool → List Char → Nat
  | _, [] => 0
  | inWord, c :: cs =>
    if pyIsSpace c then countWordsAux false cs
    else (if inWord then 0 else 1) + countWordsAux true cs

/-- `len(s.split())` in Python: the number of maximal non-whitespace runs. -/
def countWords (s : List Char) : Nat := countWordsAux false s

/-- `AITextAnalyzer._estimate_reading_time`: total whitespace-separated word
count over every page's raw text, fed to `_estimate_duration`. -/
def estimate_reading_time (pages_data : List Page) : DurationEstimate :=
  estimate_duration (pages_data.foldl (fun n p => n + countWords p.text) 0)

/-- Python `' '.join(xs)`. -/
def joinSp (xs : List (List Char)) : List Char := List.intercalate [' '] xs

/-- The mutable loop state of `_extract_chapter_content`: retained content
lines, finished paragraphs, and the running paragraph buffer. -/
structure ExtractSt where
  content_lines : List (List Char)
  paragraphs : List (List Char)
  current_paragraph : List (List Char)
deriving DecidableEq, Repr

/-- The body of the inner loop of `_extract_chapter_content` for one line at
position `i` in a page of `total` lines: a `content` line is appended to the
retained lines; if its stripped form is non-blank it joins the paragraph
buffer, otherwise a non-empty buffer is flushed as one paragraph. -/
def lineStep (total i : Nat) (st : ExtractSt) (line : List Char) : ExtractSt :=
  if classify_line_type line i total = .content then
    let s := pystrip line
    let st1 := { st with content_lines := st.content_lines ++ [s] }
    if !s.isEmpty then
      { st1 with current_paragraph := st1.current_paragraph ++ [s] }
    else if !st1.current_paragraph.isEmpty then
      { st1 with paragraphs := st1.paragraphs ++ [joinSp st1.current_paragraph],
                 current_paragraph := [] }
    else st1
  else st

/-- The inner loop of `_extract_chapter_content` over the remaining lines of a
page, carrying the enumeration index. -/
def scanLines (total : Nat) : Nat → List (List Char) → ExtractSt → ExtractSt
  | _, [], st => st
  | i, l :: ls, st => scanLines total (i + 1) ls (lineStep total i st l)

/-- The per-page step of `_extract_chapter_content`: pages with
`start_page <= page_number < end_page` are scanned from line
`start_line + 1` on the start page and from line 0 elsewhere. -/
def pageStep (start_page end_page start_line : Nat) (st : ExtractSt) (page : Page) :
    ExtractSt :=
  if start_page ≤ page.page_number ∧ page.page_number < end_page then
    let lines := pageLines page
    let start_idx := if page.page_number = start_page then start_line + 1 else 0
    scanLines lines.length start_idx (lines.drop start_idx) st
  else st

/-- The result record of `_extract_chapter_content`. -/
structure ChapterContentR where
  text : List Char
  paragraphs : List (List Char)
  word_count : Nat
  estimated_duration : DurationEstimate
deriving DecidableEq, Repr

/-- The final loop state of `_extract_chapter_content` over all pages. -/
def extractLoop (pages_data : List Page) (start_page end_page start_line : Nat) :
    ExtractSt :=
  pages_data.foldl (pageStep start_page end_page start_line) ⟨[], [], []⟩

/-- The retained content lines of a chapter extraction. -/
def contentLinesOf (pages_data : List Page) (start_page end_page start_line : Nat) :
    List (List Char) :=
  (extractLoop pages_data start_page end_page start_line).content_lines

/-- `AITextAnalyzer._extract_chapter_content`: scan the chapter's page range,
retain `content` lines, assemble paragraphs (flushing the trailing buffer),
join the full text with spaces and count its words. -/
def extract_chapter_content (pages_data : List Page)
    (start_page end_page : Nat) (start_line : Nat := 0) : ChapterContentR :=
  let st := extractLoop pages_data start_page end_page start_line
  let paragraphs :=
    if !st.current_paragraph.isEmpty then
      st.paragraphs ++ [joinSp st.current_paragraph]
    else st.paragraphs
  let full_text := joinSp st.content_lines
  let word_count := countWords full_text
  { text := full_text, paragraphs := paragraphs, word_count := word_count,
    estimated_duration := estimate_duration word_count }

/-- The document-level metadata of the structured content. -/
structure DocMetadata where
  total_pages : Nat
  total_chapters : Nat
  estimated_reading_time : DurationEstimate
deriving DecidableEq, Repr

/-- One chapter entry of the structured content assembled by
`organize_text_for_audiobook`. -/
structure ChapterEntry where
  number : Option Int
  title : List Char
  type : ChapKind
  page_range : Nat × Nat
  content : List Char
  paragraphs : List (List Char)
  word_count : Nat
  estimated_duration : DurationEstimate
deriving DecidableEq, Repr

/-- The structured content returned by `organize_text_for_audiobook`. -/
structure StructuredDocument where
  metadata : DocMetadata
  chapters : List ChapterEntry
deriving DecidableEq, Repr

/-- One iteration of the chapter loop in `organize_text_for_audiobook`, given
the exclusive end page already computed. -/
def mkChapterEntry (pages_data : List Page) (c : ChapterMarker) (end_page : Nat) :
    ChapterEntry :=
  let cc := extract_chapter_content pages_data c.page end_page c.line_position
  { number := c.chapter_number, title := c.title, type := c.type,
    page_range := (c.page, end_page - 1), content := cc.text,
    paragraphs := cc.paragraphs, word_count := cc.word_count,
    estimated_duration := cc.estimated_duration }

/-- The chapter loop of `organize_text_for_audiobook`: the exclusive end page
of chapter `i` is the next marker's page, or `len(pages_data) + 1` for the
final marker. -/
def organizeChapters (pages_data : List Page) : List ChapterMarker → List ChapterEntry
  | [] => []
  | [c] => [mkChapterEntry pages_data c (pages_data.length + 1)]
  | c :: c2 :: rest =>
    mkChapterEntry pages_data c c2.page :: organizeChapters pages_data (c2 :: rest)

/-- `AITextAnalyzer.organize_text_for_audiobook`. -/
def organize_text_for_audiobook (pages_data : List Page)
    (chapters : List ChapterMarker) : StructuredDocument :=
  { metadata :=
      { total_pages := pages_data.length, total_chapters := chapters.length,
        estimated_reading_time := estimate_reading_time pages_data },
    chapters := organizeChapters pages_data chapters }

/-- Modelled from the spec: the bound `(max page_number in pages) + 1` that
§4.5 prescribes for the final chapter's exclusive end page, used only to
compare the spec's words with the source's `len(pages_data) + 1`. -/
def maxPageNumber (pages_data : List Page) : Nat :=
  pages_data.foldl (fun m p => max m p.page_number) 0

/-- Ones digit of the canonical Roman-numeral writing (test oracle). -/
def romanOnes : Nat → List Char
  | 1 => "I".data | 2 => "II".data | 3 => "III".data | 4 => "IV".data
  | 5 => "V".data | 6 => "VI".data | 7 => "VII".data | 8 => "VIII".data
  | 9 => "IX".data | _ => []

/-- Tens digit of the canonical Roman-numeral writing (test oracle). -/
def romanTens : Nat → List Char
  | 1 => "X".data | 2 => "XX".data | 3 => "XXX".data | 4 => "XL".data
  | 5 => "L".data | 6 => "LX".data | 7 => "LXX".data | 8 => "LXXX".data
  | 9 => "XC".data | _ => []

/-- Hundreds digit of the canonical Roman-numeral writing (test oracle). -/
def romanHund : Nat → List Char
  | 1 => "C".data | 2 => "CC".data | 3 => "CCC".data | 4 => "CD".data
  | 5 => "D".data | 6 => "DC".data | 7 => "DCC".data | 8 => "DCCC".data
  | 9 => "CM".data | _ => []

/-- Modelled from the spec: the reference `int_to_roman` test oracle of §8
(canonical subtractive Roman numerals, not part of the production surface). -/
def int_to_roman (n : Nat) : List Char :=
  List.replicate (n / 1000) 'M' ++ romanHund (n / 100 % 10) ++
    romanTens (n / 10 % 10) ++ romanOnes (n % 10)

/-- Executable round-trip check for one value. -/
def roundTripCheck (n : Nat) : Bool := roman_to_int (int_to_roman n) == (n : Int)

example : classify_line_type "CHAPTER 1".data 0 4 = .chapter := by decide
example : classify_line_type "".data 1 4 = .empty := by decide
example : classify_line_type "Hello world.".data 2 4 = .content := by decide
example : classify_line_type "It is a nice day.".data 3 4 = .content := by decide
example : classify_line_type "42".data 0 10 = .header := by decide
example : classify_line_type "42".data 9 10 = .footer := by decide
example : classify_line_type "12 see the appendix".data 5 10 = .footnote := by decide
example : classify_line_type "[3] Some reference".data 5 10 = .reference := by decide
example : roman_to_int "XIV".data = 14 := by decide
example : roman_to_int "C".data = 100 := by decide
example : extract_chapter_info "CHAPTER 1".data = (some 1, .chapterKind) := by decide
example : extract_chapter_info "Chapter IV".data = (some 100, .chapterKind) := by decide
example :
    detect_chapters_advanced
        [⟨1, "CHAPTER 1\n\nHello world.\nIt is a nice day.".data⟩] =
      [{ title := "CHAPTER 1".data, chapter_number := some 1,
         type := .chapterKind, page := 1, line_position := 0,
         confidence := (9 : ℚ) / 10 }] := by rfl

/-! ## Round-trip chunks for the Roman-numeral oracle -/

set_option maxRecDepth 2000 in
set_option maxHeartbeats 2000000 in
lemma rtChunk1 : ((List.range' 1 500).all roundTripCheck) = true := by decide

set_option maxRecDepth 2000 in
set_option maxHeartbeats 2000000 in
lemma rtChunk2 : ((List.range' 501 500).all roundTripCheck) = true := by decide

set_option maxRecDepth 2000 in
set_option maxHeartbeats 2000000 in
lemma rtChunk3 : ((List.range' 1001 500).all roundTripCheck) = true := by decide

set_option maxRecDepth 2000 in
set_option maxHeartbeats 2000000 in
lemma rtChunk4 : ((List.range' 1501 500).all roundTripCheck) = true := by decide

set_option maxRecDepth 2000 in
set_option maxHeartbeats 2000000 in
lemma rtChunk5 : ((List.range' 2001 500).all roundTripCheck) = true := by decide

set_option maxRecDepth 2000 in
set_option maxHeartbeats 2000000 in
lemma rtChunk6 : ((List.range' 2501 500).all roundTripCheck) = true := by decide

set_option maxRecDepth 2000 in
set_option maxHeartbeats 2000000 in
lemma rtChunk7 : ((List.range' 3001 500).all roundTripCheck) = true := by decide

set_option maxRecDepth 2000 in
set_option maxHeartbeats 2000000 in
lemma rtChunk8 : ((List.range' 3501 499).all roundTripCheck) = true := by decide

lemma roundTripCheck_of_range (n a k : Nat)
    (hall : ((List.range' a k).all roundTripCheck) = true)
    (h1 : a ≤ n) (h2 : n < a + k) : roundTripCheck n = true :=
  List.all_eq_true.mp hall n (List.mem_range'.mpr ⟨n - a, by omega, by omega⟩)

/-! ## Claim theorems -/

/-- C6: Roman-numeral round-trip — for every integer n in [1, 3999],
converting n to its canonical Roman-numeral string via the `int_to_roman`
test oracle and applying the production right-to-left `_roman_to_int`
conversion yields n back. -/
theorem c6_roman_round_trip (n : Nat) (h1 : 1 ≤ n) (h2 : n ≤ 3999) :
    roman_to_int (int_to_roman n) = (n : Int) := by
  have hb : roundTripCheck n = true := by
    rcases Nat.lt_or_ge n 501 with h | h
    · exact roundTripCheck_of_range n 1 500 rtChunk1 h1 (by omega)
    rcases Nat.lt_or_ge n 1001 with h' | h'
    · exact roundTripCheck_of_range n 501 500 rtChunk2 h (by omega)
    rcases Nat.lt_or_ge n 1501 with h'' | h''
    · exact roundTripCheck_of_range n 1001 500 rtChunk3 h' (by omega)
    rcases Nat.lt_or_ge n 2001 with h3 | h3
    · exact roundTripCheck_of_range n 1501 500 rtChunk4 h'' (by omega)
    rcases Nat.lt_or_ge n 2501 with h4 | h4
    · exact roundTripCheck_of_range n 2001 500 rtChunk5 h3 (by omega)
    rcases Nat.lt_or_ge n 3001 with h5 | h5
    · exact roundTripCheck_of_range n 2501 500 rtChunk6 h4 (by omega)
    rcases Nat.lt_or_ge n 3501 with h6 | h6
    · exact roundTripCheck_of_range n 3001 500 rtChunk7 h5 (by omega)
    · exact roundTripCheck_of_range n 3501 499 rtChunk8 h6 (by omega)
  simpa [roundTripCheck] using hb

/-- Witness for C6 at n = 1994 (MCMXCIV). -/
theorem c6_roman_round_trip_witness :
    1 ≤ 1994 ∧ 1994 ≤ 3999 ∧ roman_to_int (int_to_roman 1994) = (1994 : Int) :=
  ⟨by decide, by decide, c6_roman_round_trip 1994 (by decide) (by decide)⟩

/-- C5: every line whose whitespace-trimmed form is empty is classified
`empty`, for every position and every positive total line count — the empty
check is the classifier's first step and ignores position and total. -/
theorem c5_blank_line_empty (line : List Char) (position total_lines : Nat)
    (_ht : 0 < total_lines) (h : pystrip line = []) :
    classify_line_type line position total_lines = .empty := by
  simp [classify_line_type, h]

/-- Witness for C5 at a whitespace-only line, position 2 of a 4-line page. -/
theorem c5_blank_line_empty_witness :
    0 < 4 ∧ pystrip " \t ".data = [] ∧
      classify_line_type " \t ".data 2 4 = .empty :=
  ⟨by decide, by decide, c5_blank_line_empty " \t ".data 2 4 (by decide) (by decide)⟩

/-- C7: `_estimate_duration` is the total function sending a word count to
the triple of word_count/130, /150, /180 each rounded to one decimal place,
and at word_count = 300 it returns slow = 2.3, medium = 2.0, fast = 1.7. -/
theorem c7_duration_estimate :
    (∀ word_count : Nat,
      estimate_duration word_count =
        { slow := pyRound1 ((word_count : ℚ) / 130),
          medium := pyRound1 ((word_count : ℚ) / 150),
          fast := pyRound1 ((word_count : ℚ) / 180) }) ∧
    estimate_duration 300 =
      { slow := 23 / 10, medium := 2, fast := 17 / 10 } := by
  refine ⟨fun word_count => rfl, ?_⟩
  norm_num [estimate_duration, pyRound1, roundHalfEven]

/-- C9: organizing with an empty chapter list returns a valid structured
document with zero chapters and the usual document-level metadata; no
implicit whole-document chapter is created. -/
theorem c9_empty_chapter_list (pages_data : List Page) :
    organize_text_for_audiobook pages_data [] =
      { metadata := { total_pages := pages_data.length, total_chapters := 0,
                      estimated_reading_time := estimate_reading_time pages_data },
        chapters := [] } := rfl

/-- C4: end-to-end scenario 1 — on the single page 1 with lines
["CHAPTER 1", "", "Hello world.", "It is a nice day."], detection yields
exactly one marker (title "CHAPTER 1", page 1, line index 0, ordinal 1), and
the chapter's extraction yields the single paragraph
"Hello world. It is a nice day." with word count 7. -/
theorem c4_end_to_end_scenario1 :
    detect_chapters_advanced
        [⟨1, "CHAPTER 1\n\nHello world.\nIt is a nice day.".data⟩] =
      [{ title := "CHAPTER 1".data, chapter_number := some 1,
         type := .chapterKind, page := 1, line_position := 0,
         confidence := (9 : ℚ) / 10 }] ∧
    (extract_chapter_content
        [⟨1, "CHAPTER 1\n\nHello world.\nIt is a nice day.".data⟩] 1 2 0).paragraphs =
      ["Hello world. It is a nice day.".data] ∧
    (extract_chapter_content
        [⟨1, "CHAPTER 1\n\nHello world.\nIt is a nice day.".data⟩] 1 2 0).word_count = 7 :=
  ⟨by rfl, by decide, by decide⟩

/-- C1: evaluation at the failing input — a chapter whose scanned lines are
"First line.", a blank line, then "Second line." produces the SINGLE
paragraph "First line. Second line.": the blank line is classified `empty`
and filtered out by the `content` guard before the paragraph logic, so the
blank-line flush branch never fires and the two runs are not split. -/
theorem c1_failing_input_single_paragraph :
    (extract_chapter_content
        [⟨1, "CHAPTER 1\nFirst line.\n\nSecond line.".data⟩] 1 2 0).paragraphs =
      ["First line. Second line.".data] := by decide

/-- C2 counterexample: with pages numbered 1 and 3 (page 2 absent, so the
numbering is not gapless) and a single marker on page 1, the organizer's
final chapter has page_range (1, 2) — exclusive end bound 3 = len(pages)+1,
not max page_number + 1 = 4 — and its scan misses page 3 entirely
(word_count 0 although page 3 holds 4 words of content). -/
theorem c2_counterexample :
    ((organize_text_for_audiobook
        [⟨1, "CHAPTER 1".data⟩, ⟨3, "Some body text here.".data⟩]
        [{ title := "CHAPTER 1".data, chapter_number := some 1,
           type := .chapterKind, page := 1, line_position := 0,
           confidence := (9 : ℚ) / 10 }]).chapters.map
      (fun e => (e.page_range, e.word_count)) = [((1, 2), 0)]) ∧
    maxPageNumber [⟨1, "CHAPTER 1".data⟩, ⟨3, "Some body text here.".data⟩] = 3 ∧
    countWords "Some body text here.".data = 4 ∧
    classify_line_type "Some body text here.".data 0 1 = .content :=
  ⟨by decide, by decide, by decide, by decide⟩

/-- The chapter loop never returns an empty list on a non-empty marker list. -/
lemma organizeChapters_ne_nil (pages_data : List Page) (c : ChapterMarker)
    (cs : List ChapterMarker) : organizeChapters pages_data (c :: cs) ≠ [] := by
  cases cs <;> simp [organizeChapters]

/-- `getLast?` ignores a cons in front of a non-empty list. -/
lemma getLast?_cons_ne_nil {α : Type} (a : α) {l : List α} (h : l ≠ []) :
    (a :: l).getLast? = l.getLast? := by
  cases l with
  | nil => cases h rfl
  | cons b t => exact List.getLast?_cons_cons

/-- The final entry produced by the chapter loop has inclusive end page
`len(pages) + 1 - 1 = len(pages)`. -/
lemma organizeChapters_last (pages_data : List Page) (c : ChapterMarker)
    (cs : List ChapterMarker) :
    ∃ e, (organizeChapters pages_data (c :: cs)).getLast? = some e ∧
      e.page_range.2 = pages_data.length := by
  induction cs generalizing c with
  | nil =>
    refine ⟨mkChapterEntry pages_data c (pages_data.length + 1), rfl, ?_⟩
    simp [mkChapterEntry]
  | cons c2 cs2 ih =>
    obtain ⟨e, he, hp⟩ := ih c2
    refine ⟨e, ?_, hp⟩
    show (mkChapterEntry pages_data c c2.page ::
      organizeChapters pages_data (c2 :: cs2)).getLast? = some e
    rw [getLast?_cons_ne_nil _ (organizeChapters_ne_nil pages_data c2 cs2)]
    exact he

/-- C2 amended: for every page sequence and non-empty marker list, the final
chapter's exclusive end bound is `len(pages) + 1` (inclusive end page =
number of pages) — it equals (max page_number)+1 only when the numbering is
gapless from 1, not in general. -/
theorem c2_amended_last_end_bound (pages_data : List Page)
    (chs : List ChapterMarker) (h : chs ≠ []) :
    ∃ e, (organize_text_for_audiobook pages_data chs).chapters.getLast? = some e ∧
      e.page_range.2 + 1 = pages_data.length + 1 := by
  cases chs with
  | nil => cases h rfl
  | cons c cs =>
    obtain ⟨e, he, hp⟩ := organizeChapters_last pages_data c cs
    exact ⟨e, he, by omega⟩

/-- Witness for C2 amended at a concrete two-page document. -/
theorem c2_amended_witness :
    (([{ title := "CHAPTER 1".data, chapter_number := some 1,
         type := .chapterKind, page := 1, line_position := 0,
         confidence := (9 : ℚ) / 10 }] : List ChapterMarker) ≠ []) ∧
    ∃ e, (organize_text_for_audiobook
        [⟨1, "CHAPTER 1".data⟩, ⟨3, "Some body text here.".data⟩]
        [{ title := "CHAPTER 1".data, chapter_number := some 1,
           type := .chapterKind, page := 1, line_position := 0,
           confidence := (9 : ℚ) / 10 }]).chapters.getLast? = some e ∧
      e.page_range.2 + 1 =
        ([⟨1, "CHAPTER 1".data⟩, ⟨3, "Some body text here.".data⟩] : List Page).length + 1 :=
  ⟨List.cons_ne_nil _ _,
   c2_amended_last_end_bound _ _ (List.cons_ne_nil _ _)⟩

/-- C3 counterexample: page 2 opens with the content line
"Orphan content line." before the heading "CHAPTER 2". Chapter 1's page
range ends exclusively at page 2 and chapter 2's scan starts after its own
heading, so that content line appears in NO chapter: chapter 1's content is
empty and chapter 2's content is only "Body text here.". -/
theorem c3_counterexample :
    ((organize_text_for_audiobook
        [⟨1, "CHAPTER 1".data⟩,
         ⟨2, "Orphan content line.\nCHAPTER 2\nBody text here.".data⟩]
        (detect_chapters_advanced
          [⟨1, "CHAPTER 1".data⟩,
           ⟨2, "Orphan content line.\nCHAPTER 2\nBody text here.".data⟩])).chapters.map
      (fun e => e.content) = [[], "Body text here.".data]) ∧
    classify_line_type "Orphan content line.".data 0 3 = .content ∧
    (detect_chapters_advanced
        [⟨1, "CHAPTER 1".data⟩,
         ⟨2, "Orphan content line.\nCHAPTER 2\nBody text here.".data⟩]).map
      (fun m => (m.page, m.line_position)) = [(1, 0), (2, 1)] :=
  ⟨by decide, by decide, by decide⟩

/-- Agreement of two pages on everything the chapter extraction with bounds
`(s, e)` and heading line `l` may read: equal page numbers, and — when the
page is in range — equal line counts and equal lines strictly after the
heading line on the start page (from line 0 on other pages). -/
def agreeVisible (s e l : Nat) (p q : Page) : Prop :=
  p.page_number = q.page_number ∧
  (s ≤ p.page_number ∧ p.page_number < e →
    (pageLines p).length = (pageLines q).length ∧
    (pageLines p).drop (if p.page_number = s then l + 1 else 0) =
      (pageLines q).drop (if p.page_number = s then l + 1 else 0))

/-- The per-page extraction step is unchanged under `agreeVisible`. -/
lemma pageStep_congr (s e l : Nat) (st : ExtractSt) (p q : Page)
    (h : agreeVisible s e l p q) :
    pageStep s e l st p = pageStep s e l st q := by
  obtain ⟨hnum, hvis⟩ := h
  unfold pageStep
  simp only [← hnum]
  by_cases hin : s ≤ p.page_number ∧ p.page_number < e
  · obtain ⟨hlen, hdrop⟩ := hvis hin
    rw [if_pos hin, if_pos hin, hlen, hdrop]
  · rw [if_neg hin, if_neg hin]

/-- C3 amended: a chapter's content begins strictly after its own heading
line on its start page — the extraction depends only on the lines at indices
> start_line on the start page and the lines of other in-range pages, never
on the heading line, anything before it, or out-of-range pages. (Content
before a chapter's heading on that page belongs to NO chapter, not to the
previous one: the previous chapter's exclusive page range already ends
there, as `c3_counterexample` exhibits.) -/
theorem c3_amended_heading_independence (s e l : Nat) (ps qs : List Page)
    (h : List.Forall₂ (agreeVisible s e l) ps qs) :
    extract_chapter_content ps s e l = extract_chapter_content qs s e l := by
  have key : ∀ st : ExtractSt,
      ps.foldl (pageStep s e l) st = qs.foldl (pageStep s e l) st := by
    induction h with
    | nil => intro st; rfl
    | cons hpq _ ih =>
      intro st
      simp only [List.foldl_cons]
      rw [pageStep_congr s e l st _ _ hpq]
      exact ih _
  unfold extract_chapter_content extractLoop
  rw [key]

/-- Witness for C3 amended: replacing the heading line (and nothing after
it) leaves the extracted chapter content unchanged. -/
theorem c3_amended_witness :
    List.Forall₂ (agreeVisible 1 2 0)
        [⟨1, "CHAPTER 1\nHello there.".data⟩]
        [⟨1, "A DIFFERENT HEADING\nHello there.".data⟩] ∧
    extract_chapter_content [⟨1, "CHAPTER 1\nHello there.".data⟩] 1 2 0 =
      extract_chapter_content [⟨1, "A DIFFERENT HEADING\nHello there.".data⟩] 1 2 0 := by
  have hf : List.Forall₂ (agreeVisible 1 2 0)
      [⟨1, "CHAPTER 1\nHello there.".data⟩]
      [⟨1, "A DIFFERENT HEADING\nHello there.".data⟩] :=
    List.Forall₂.cons ⟨rfl, fun _ => ⟨by decide, by decide⟩⟩ List.Forall₂.nil
  exact ⟨hf, c3_amended_heading_independence 1 2 0 _ _ hf⟩

/-- The line step changes the retained content lines exactly when the line is
classified `content`, appending its stripped form. -/
lemma lineStep_content_lines (total i : Nat) (st : ExtractSt) (line : List Char) :
    (lineStep total i st line).content_lines =
      if classify_line_type line i total = .content then
        st.content_lines ++ [pystrip line]
      else st.content_lines := by
  by_cases h : classify_line_type line i total = LineType.content
  · simp only [lineStep, h, if_true, eq_self_iff_true]
    split
    · rfl
    · split <;> rfl
  · simp only [lineStep, h, if_false, if_neg h]

/-- Provenance through the inner line scan: any retained content line was
already retained, or comes from some scanned line classified `content`. -/
lemma scanLines_content_mem (total : Nat) :
    ∀ (ls : List (List Char)) (i : Nat) (st : ExtractSt) (x : List Char),
      x ∈ (scanLines total i ls st).content_lines →
      x ∈ st.content_lines ∨
        ∃ k line, ls[k]? = some line ∧
          classify_line_type line (i + k) total = .content ∧ x = pystrip line := by
  intro ls
  induction ls with
  | nil => intro i st x hx; exact Or.inl hx
  | cons l ls ih =>
    intro i st x hx
    rcases ih (i + 1) (lineStep total i st l) x hx with h1 | ⟨k, line, hk, hc, hs⟩
    · rw [lineStep_content_lines] at h1
      by_cases h : classify_line_type l i total = LineType.content
      · rw [if_pos h] at h1
        rcases List.mem_append.mp h1 with h2 | h2
        · exact Or.inl h2
        · refine Or.inr ⟨0, l, by simp, ?_, List.mem_singleton.mp h2⟩
          simpa using h
      · rw [if_neg h] at h1
        exact Or.inl h1
    · refine Or.inr ⟨k + 1, line, ?_, ?_, hs⟩
      · simpa using hk
      · have : i + (k + 1) = i + 1 + k := by omega
        rw [this]
        exact hc

/-- Provenance through one page step: any newly retained content line comes
from a line of that page, classified `content` at its index with the page's
total line count. -/
lemma pageStep_content_mem (s e l : Nat) (st : ExtractSt) (p : Page)
    (x : List Char) (hx : x ∈ (pageStep s e l st p).content_lines) :
    x ∈ st.content_lines ∨
      ∃ i line, (pageLines p)[i]? = some line ∧
        classify_line_type line i (pageLines p).length = .content ∧
        x = pystrip line := by
  unfold pageStep at hx
  by_cases hin : s ≤ p.page_number ∧ p.page_number < e
  · rw [if_pos hin] at hx
    rcases scanLines_content_mem (pageLines p).length _ _ _ _ hx with h1 | ⟨k, line, hk, hc, hs⟩
    · exact Or.inl h1
    · refine Or.inr ⟨(if p.page_number = s then l + 1 else 0) + k, line, ?_, hc, hs⟩
      rw [← hk]
      exact (List.getElem?_drop (pageLines p) _ k).symm
  · rw [if_neg hin] at hx
    exact Or.inl hx

/-- Provenance through the whole page fold. -/
lemma foldl_content_mem (s e l : Nat) :
    ∀ (ps : List Page) (st : ExtractSt) (x : List Char),
      x ∈ (ps.foldl (pageStep s e l) st).content_lines →
      x ∈ st.content_lines ∨
        ∃ p ∈ ps, ∃ i line, (pageLines p)[i]? = some line ∧
          classify_line_type line i (pageLines p).length = .content ∧
          x = pystrip line := by
  intro ps
  induction ps with
  | nil => intro st x hx; exact Or.inl hx
  | cons p ps ih =>
    intro st x hx
    rcases ih (pageStep s e l st p) x hx with h1 | ⟨q, hq, rest⟩
    · rcases pageStep_content_mem s e l st p x h1 with h2 | h2
      · exact Or.inl h2
      · exact Or.inr ⟨p, List.mem_cons_self p ps, h2⟩
    · exact Or.inr ⟨q, List.mem_cons_of_mem p hq, rest⟩

/-- C8: content exclusivity — the chapter text is the space-join of the
retained lines, and every retained line originates from a line of some page
that the classifier classifies `content` at its position within its page: no
line classified `chapter`, `header`, `footer`, `footnote`, `reference` or
`empty` ever appears. -/
theorem c8_content_exclusivity (pages_data : List Page)
    (start_page end_page start_line : Nat) :
    (extract_chapter_content pages_data start_page end_page start_line).text =
      joinSp (contentLinesOf pages_data start_page end_page start_line) ∧
    ∀ x ∈ contentLinesOf pages_data start_page end_page start_line,
      ∃ p ∈ pages_data, ∃ i line, (pageLines p)[i]? = some line ∧
        classify_line_type line i (pageLines p).length = .content ∧
        x = pystrip line := by
  refine ⟨rfl, fun x hx => ?_⟩
  rcases foldl_content_mem start_page end_page start_line pages_data ⟨[], [], []⟩ x hx with
    h1 | h2
  · cases h1
  · exact h2

/-- Witness for C8: a concrete retained line together with its provenance. -/
theorem c8_content_exclusivity_witness :
    "Hello there.".data ∈
      contentLinesOf [⟨1, "CHAPTER 1\nHello there.".data⟩] 1 2 0 ∧
    ∃ p ∈ ([⟨1, "CHAPTER 1\nHello there.".data⟩] : List Page),
      ∃ i line, (pageLines p)[i]? = some line ∧
        classify_line_type line i (pageLines p).length = .content ∧
        "Hello there.".data = pystrip line :=
  ⟨by decide,
   (c8_content_exclusivity [⟨1, "CHAPTER 1\nHello there.".data⟩] 1 2 0).2
     "Hello there.".data (by decide)⟩

/-- A digit-free string has no digit-run match. -/
lemma searchRun_digit_none (xs : List Char) (h : ∀ c ∈ xs, isDigitC c = false) :
    searchRun isDigitC xs = none := by
  induction xs with
  | nil => rfl
  | cons c cs ih =>
    simp only [searchRun, h c (List.mem_cons_self c cs), if_false, Bool.false_eq_true]
    exact ih fun d hd => h d (List.mem_cons_of_mem c hd)

/-- When the digit search fails and the Roman search returns exactly "C",
the extracted ordinal is 100. -/
lemma extract_info_of_runs (line : List Char)
    (ha : searchRun isDigitC line = none)
    (hr : searchRun isRomanC line = some ['C']) :
    (extract_chapter_info line).1 = some 100 := by
  simp only [extract_chapter_info, ha, hr]
  rfl

/-- C10: for every chapter title formed from a heading word
"Chapter"/"CHAPTER"/"Capítulo"/"CAPÍTULO" followed by a space and any
digit-free remainder (e.g. a trailing Roman numeral, as in "Chapter IV"),
the ordinal extraction finds the first maximal `[IVXLCDM]` run — the single
letter "C" of the heading word itself — and returns 100, not the value of
the trailing numeral. -/
theorem c10_heading_word_roman_c (w : List Char)
    (hw : w ∈ ["Chapter".data, "CHAPTER".data, "Capítulo".data, "CAPÍTULO".data])
    (rest : List Char) (hnd : ∀ c ∈ rest, isDigitC c = false) :
    (extract_chapter_info (w ++ ' ' :: rest)).1 = some 100 := by
  have hdig : ∀ (pre : List Char), (∀ c ∈ pre, isDigitC c = false) →
      searchRun isDigitC (pre ++ ' ' :: rest) = none := by
    intro pre hpre
    apply searchRun_digit_none
    intro c hc
    rcases List.mem_append.mp hc with h1 | h2
    · exact hpre c h1
    · rcases List.mem_cons.mp h2 with h3 | h3
      · rw [h3]; rfl
      · exact hnd c h3
  fin_cases hw
  · refine extract_info_of_runs _ (hdig _ (by decide)) ?_
    show searchRun isRomanC
      ('C' :: 'h' :: 'a' :: 'p' :: 't' :: 'e' :: 'r' :: ' ' :: rest) = some ['C']
    simp [searchRun, isRomanC, List.takeWhile]
  · refine extract_info_of_runs _ (hdig _ (by decide)) ?_
    show searchRun isRomanC
      ('C' :: 'H' :: 'A' :: 'P' :: 'T' :: 'E' :: 'R' :: ' ' :: rest) = some ['C']
    simp [searchRun, isRomanC, List.takeWhile]
  · refine extract_info_of_runs _ (hdig _ (by decide)) ?_
    show searchRun isRomanC
      ('C' :: 'a' :: 'p' :: 'í' :: 't' :: 'u' :: 'l' :: 'o' :: ' ' :: rest) = some ['C']
    simp [searchRun, isRomanC, List.takeWhile]
  · refine extract_info_of_runs _ (hdig _ (by decide)) ?_
    show searchRun isRomanC
      ('C' :: 'A' :: 'P' :: 'Í' :: 'T' :: 'U' :: 'L' :: 'O' :: ' ' :: rest) = some ['C']
    simp [searchRun, isRomanC, List.takeWhile]

/-- Witness for C10 at the title "Chapter IV": the ordinal is 100, not 4. -/
theorem c10_heading_word_roman_c_witness :
    ("Chapter".data ∈
      ["Chapter".data, "CHAPTER".data, "Capítulo".data, "CAPÍTULO".data]) ∧
    (∀ c ∈ "IV".data, isDigitC c = false) ∧
    (extract_chapter_info ("Chapter".data ++ ' ' :: "IV".data)).1 = some 100 :=
  ⟨by decide, by decide,
   c10_heading_word_roman_c "Chapter".data (by decide) "IV".data (by decide)⟩
